import Mathlib

/-!
Verification development for the SecureBox repository.

The three services (api-gateway, storage-service, background-worker) are
shallowly embedded as pure Lean functions over an explicit system state.
Opaque values of the Python code (identifiers, tokens, file contents,
filenames, content types, key material) are modelled as natural numbers;
wall-clock time is a natural number of seconds; Redis TTL semantics are
modelled by storing the absolute expiration instant of each cache entry
(an entry set at time `t` with TTL `d` is live while `now < t + d`).

MinIO object names of the form `f"{file_id}/{secrets.token_hex(8)}"`
(storage-service `store_file`) are modelled as the pair
`(file_id, random suffix)`.
-/

/-- A row of the `files` table created by `init_database` in
`services/storage-service/app.py`. -/
structure FileRecord where
  file_id : Nat
  filename : Nat
  file_size : Nat
  content_type : Nat
  download_token : Nat
  /-- Key material produced by the encryption service.  The encryption
  service is modelled (see `modelDecrypt`), and its key material is
  represented by the optional password bound into it at encryption time. -/
  encryption_key : Option Nat
  created_at : Nat
  expires_at : Nat
  downloaded_at : Option Nat
  is_downloaded : Bool
  download_count : Nat
  minioObjectName : Nat × Nat
deriving DecidableEq

/-- The Redis value cached by `store_file` under `file_meta:{file_id}`,
together with its absolute cache-expiration instant. -/
structure FileMetaCache where
  file_id : Nat
  filename : Nat
  file_size : Nat
  content_type : Nat
  expires_at : Nat
  minioObjectName : Nat × Nat
  cache_expire : Nat
deriving DecidableEq

/-- Operations recorded in the `file_audit_log` table by the background
worker. -/
inductive AuditOp
| upload
| download
| expired_cleanup
| downloaded_cleanup
| processed
deriving DecidableEq

/-- A row of the `file_audit_log` table. -/
structure AuditEntry where
  file_id : Nat
  operation : AuditOp
deriving DecidableEq

/-- The combined durable and ephemeral state of the system: the `files`
table (Postgres), the blob tier (MinIO, object name to encrypted
content), the gateway token cache (Redis `token:{token}` to `file_id`
with absolute expiry), the storage-service metadata cache (Redis
`file_meta:{file_id}`), and the audit log. -/
structure SysState where
  db : List FileRecord
  blobs : List ((Nat × Nat) × Nat)
  tokenCache : List (Nat × Nat × Nat)
  metaCache : List FileMetaCache
  auditLog : List AuditEntry
deriving DecidableEq

/-- Gateway-side Redis lookup of `token:{token}` at time `now`: the
cached `file_id`, if a live entry exists. -/
def cacheLookupToken (now tok : Nat) (st : SysState) : Option Nat :=
  match st.tokenCache.find? (fun e => e.1 == tok && now < e.2.2) with
  | some e => some e.2.1
  | none => none

/-- Result of storage-service `retrieve_file` (`GET /retrieve/<file_id>`). -/
inductive RetrieveRes
| notFound
| expired
| alreadyDownloaded
| blobMissing
| ok (file_id : Nat) (filename : Nat) (file_size : Nat) (content_type : Nat)
    (encrypted_content : Nat) (encryption_key : Option Nat)
    (created_at : Nat) (expires_at : Nat)
deriving DecidableEq

/-- Storage-service `retrieve_file`: SELECT the row matching both
`file_id` and `download_token`; 404 when none; 410 when
`utcnow() > expires_at`; 410 when `is_downloaded`; otherwise fetch the
blob (404 on `S3Error`) and return the payload.  The handler issues only
reads, so the state is returned unchanged at every exit. -/
def retrieve_file (fid tok now : Nat) (st : SysState) : RetrieveRes × SysState :=
  match st.db.find? (fun r => r.file_id == fid && r.download_token == tok) with
  | none => (.notFound, st)
  | some r =>
    if now > r.expires_at then (.expired, st)
    else if r.is_downloaded then (.alreadyDownloaded, st)
    else
      match st.blobs.find? (fun b => b.1 == r.minioObjectName) with
      | none => (.blobMissing, st)
      | some b =>
        (.ok r.file_id r.filename r.file_size r.content_type b.2
          r.encryption_key r.created_at r.expires_at, st)

/-- Result of storage-service `mark_file_downloaded`
(`POST /mark_downloaded/<file_id>`). -/
inductive MarkRes
| notFound
| ok
deriving DecidableEq

/-- The WHERE clause of the UPDATE in `mark_file_downloaded`: it matches
on `file_id` and `download_token` only — there is no
`is_downloaded = FALSE` condition in the source. -/
def markMatches (fid tok : Nat) (r : FileRecord) : Bool :=
  r.file_id == fid && r.download_token == tok

/-- The SET clause of the UPDATE in `mark_file_downloaded`. -/
def markUpdate (now : Nat) (r : FileRecord) : FileRecord :=
  { r with is_downloaded := true, downloaded_at := some now,
           download_count := r.download_count + 1 }

/-- Storage-service `mark_file_downloaded`: UPDATE rows matching
`(file_id, download_token)`; when `rowcount = 0` respond 404 without
committing; otherwise commit and delete the Redis key
`file_meta:{file_id}`. -/
def mark_file_downloaded (fid tok now : Nat) (st : SysState) : MarkRes × SysState :=
  if st.db.any (markMatches fid tok) then
    (.ok,
      { st with
        db := st.db.map (fun r => if markMatches fid tok r then markUpdate now r else r),
        metaCache := st.metaCache.filter (fun m => m.file_id != fid) })
  else (.notFound, st)

/-- The request body of storage-service `store_file` (`POST /store`). -/
structure StoreReq where
  file_id : Nat
  filename : Nat
  encrypted_content : Nat
  encryption_key : Option Nat
  file_size : Nat
  download_token : Nat
  expiry_hours : Nat
  content_type : Nat
deriving DecidableEq

/-- External effects issued by `store_file`, in program order. -/
inductive StoreEffect
| blobPut (name : Nat × Nat)
| dbInsert (file_id : Nat)
| dbCommit
| cacheSetMeta (file_id : Nat) (ttl : Nat)
deriving DecidableEq

/-- Result of storage-service `store_file`. -/
inductive StoreRes
| storageError
| storeFailed
| stored (expires_at : Nat)
deriving DecidableEq

/-- Storage-service `store_file`: compute
`expires_at = utcnow() + timedelta(hours=expiry_hours)`, generate the
object name `f"{file_id}/{secrets.token_hex(8)}"` (modelled as the pair
`(file_id, suffix)`), `put_object` into MinIO, INSERT the metadata row,
commit, then `setex` the Redis key `file_meta:{file_id}` with TTL
`expiry_hours * 3600`.  The booleans `blob_ok` and `db_ok` say whether
the MinIO write and the metadata INSERT/commit succeed; an `S3Error`
answers 500 with nothing persisted, a database failure after the blob
write answers 500 leaving the blob orphaned.  The trace lists the
external calls that were issued, in order.

`storedRow` is the metadata row INSERTed by `store_file` (fresh rows
take the table defaults `is_downloaded = FALSE`, `download_count = 0`,
`downloaded_at` NULL). -/
def storedRow (req : StoreReq) (suffix now : Nat) : FileRecord :=
  { file_id := req.file_id, filename := req.filename,
    file_size := req.file_size, content_type := req.content_type,
    download_token := req.download_token,
    encryption_key := req.encryption_key,
    created_at := now, expires_at := now + req.expiry_hours * 3600,
    downloaded_at := none, is_downloaded := false,
    download_count := 0, minioObjectName := (req.file_id, suffix) }

/-- The Redis value cached under `file_meta:{file_id}` by `store_file`,
set with TTL `expiry_hours * 3600`. -/
def storedMeta (req : StoreReq) (suffix now : Nat) : FileMetaCache :=
  { file_id := req.file_id, filename := req.filename,
    file_size := req.file_size, content_type := req.content_type,
    expires_at := now + req.expiry_hours * 3600,
    minioObjectName := (req.file_id, suffix),
    cache_expire := now + req.expiry_hours * 3600 }

def store_file (req : StoreReq) (suffix now : Nat) (blob_ok db_ok : Bool)
    (st : SysState) : StoreRes × SysState × List StoreEffect :=
  let expires_at := now + req.expiry_hours * 3600
  let objName : Nat × Nat := (req.file_id, suffix)
  if !blob_ok then (.storageError, st, [.blobPut objName])
  else
    let st1 := { st with blobs := st.blobs ++ [(objName, req.encrypted_content)] }
    if !db_ok then (.storeFailed, st1, [.blobPut objName, .dbInsert req.file_id])
    else
      (.stored expires_at,
        { st1 with db := st1.db ++ [storedRow req suffix now],
                   metaCache := st1.metaCache ++ [storedMeta req suffix now] },
        [.blobPut objName, .dbInsert req.file_id, .dbCommit,
         .cacheSetMeta req.file_id (req.expiry_hours * 3600)])

/-- The computed `status` field of the storage-service status handler. -/
inductive StatusKind
| available
| downloaded
| expired
deriving DecidableEq

/-- Result of storage-service `get_file_status` (`GET /status/<file_id>`). -/
inductive StatusRes
| notFound
| cachedMeta (m : FileMetaCache) (is_downloaded : Bool) (download_count : Nat)
| full (r : FileRecord) (s : StatusKind)
deriving DecidableEq

/-- The database fallback path of storage-service `get_file_status`:
SELECT the row matching `(file_id, download_token)`; 404 when none;
otherwise attach the computed `status`: `downloaded` when
`is_downloaded`, else `expired` when `now > expires_at`, else
`available`. -/
def statusDbFallback (fid tok now : Nat) (st : SysState) : StatusRes :=
  match st.db.find? (fun r => r.file_id == fid && r.download_token == tok) with
  | none => .notFound
  | some r =>
    .full r (if r.is_downloaded then .downloaded
             else if now > r.expires_at then .expired
             else .available)

/-- Storage-service `get_file_status`: try the Redis key
`file_meta:{file_id}` first; on a live cache hit whose
`(file_id, download_token)` row exists, respond 200 with the cached
metadata merged with the row's download fields — this response carries
no computed `status` field.  On a cache miss, or a cache hit whose row
is gone, fall back to the database path. -/
def get_file_status (fid tok now : Nat) (st : SysState) : StatusRes :=
  match st.metaCache.find? (fun m => m.file_id == fid && now < m.cache_expire) with
  | some m =>
    match st.db.find? (fun r => r.file_id == fid && r.download_token == tok) with
    | some r => .cachedMeta m r.is_downloaded r.download_count
    | none => statusDbFallback fid tok now st
  | none => statusDbFallback fid tok now st

/-- Result of the modelled decryption call. -/
inductive DecryptRes
| ok (content : Nat)
| unauthorized
deriving DecidableEq

/-- Modelled from the spec: the encryption service
(`EncryptionProvider`, not under `src/`) is specified as
`Decrypt(fileId, ciphertext, keyMaterial, password?) → plaintext |
Unauthorized | DecryptionFailed`, where a password mismatch yields
`Unauthorized` (HTTP 401 at the gateway).  Encryption is modelled as the
identity on the opaque content, with the key material remembering the
optional password supplied at encryption time; decryption succeeds
exactly when the supplied password equals that password. -/
def modelDecrypt (encrypted_content : Nat) (keyMaterial password : Option Nat) :
    DecryptRes :=
  if keyMaterial == password then .ok encrypted_content else .unauthorized

/-- The outcome of one downstream HTTP call made by the gateway: a 200
response carrying a payload, a non-200 response with a status code, or a
`requests.RequestException` (timeout / transport failure). -/
inductive CallOutcome (α : Type)
| ok (a : α)
| httpErr (code : Nat)
| exn
deriving DecidableEq

/-- External effects issued by the gateway `download_file` handler, in
program order. -/
inductive GwEffect
| callRetrieve
| callDecrypt
| callMark
| cacheDeleteTok
deriving DecidableEq

/-- Result of the gateway `download_file` handler. -/
inductive GwDlRes
| invalidLink
| fileNotFound
| storageError
| unavailable
| invalidPassword
| decryptionFailed
| content (bytes : Nat)
deriving DecidableEq

/-- Gateway `download_file` (`GET /download/<token>`), with the three
downstream calls (storage `retrieve`, encryption `decrypt`, storage
`mark_downloaded`) given by explicit outcomes.  Faithful control flow of
the source: a Redis miss on `token:{token}` answers 404; an exception in
any downstream call answers 503 (`except requests.RequestException`); a
non-200 retrieve answers 404 or 500; a non-200 decrypt answers 401 or
500; the response of the `mark_downloaded` POST is **not inspected** —
after it returns (with any status code), the handler deletes
`token:{token}` and serves the file. -/
def download_file (cacheHit : Option Nat) (retrieveRes : CallOutcome Nat)
    (decryptRes : CallOutcome Nat) (markRes : CallOutcome Nat) :
    GwDlRes × List GwEffect :=
  match cacheHit with
  | none => (.invalidLink, [])
  | some _ =>
    match retrieveRes with
    | .exn => (.unavailable, [.callRetrieve])
    | .httpErr c =>
      if c == 404 then (.fileNotFound, [.callRetrieve])
      else (.storageError, [.callRetrieve])
    | .ok _ =>
      match decryptRes with
      | .exn => (.unavailable, [.callRetrieve, .callDecrypt])
      | .httpErr c =>
        if c == 401 then (.invalidPassword, [.callRetrieve, .callDecrypt])
        else (.decryptionFailed, [.callRetrieve, .callDecrypt])
      | .ok content =>
        match markRes with
        | .exn => (.unavailable, [.callRetrieve, .callDecrypt, .callMark])
        | _ =>
          (.content content,
           [.callRetrieve, .callDecrypt, .callMark, .cacheDeleteTok])

/-- Result of the composed end-to-end download. -/
inductive DlRes
| invalidLink
| fileNotFound
| storageError
| invalidPassword
| content (bytes filename content_type : Nat)
deriving DecidableEq

/-- The gateway `download_file` handler composed with the storage
service and the modelled encryption service, on the system state, with
no transport failures: resolve `token:{token}` in Redis (miss → 404),
call storage `retrieve_file` (404/`S3Error` 404 → gateway 404, 410 →
gateway 500), call the modelled decrypt (mismatch → 401), then POST
`mark_downloaded` — whose response the gateway ignores — delete
`token:{token}`, and serve the decrypted bytes. -/
def gatewayDownload (tok : Nat) (password : Option Nat) (now : Nat)
    (st : SysState) : DlRes × SysState :=
  match cacheLookupToken now tok st with
  | none => (.invalidLink, st)
  | some fid =>
    match retrieve_file fid tok now st with
    | (.notFound, st0) => (.fileNotFound, st0)
    | (.blobMissing, st0) => (.fileNotFound, st0)
    | (.expired, st0) => (.storageError, st0)
    | (.alreadyDownloaded, st0) => (.storageError, st0)
    | (.ok _ fname _ ctype ect key _ _, st0) =>
      match modelDecrypt ect key password with
      | .unauthorized => (.invalidPassword, st0)
      | .ok contentBytes =>
        let st1 := (mark_file_downloaded fid tok now st0).2
        let st2 := { st1 with tokenCache := st1.tokenCache.filter (fun e => e.1 != tok) }
        (.content contentBytes fname ctype, st2)

/-- Result of the composed end-to-end status query. -/
inductive GwStatusRes
| invalidLink
| notFound
| okCached (m : FileMetaCache) (is_downloaded : Bool) (download_count : Nat)
| okStatus (r : FileRecord) (s : StatusKind)
deriving DecidableEq

/-- The gateway `get_file_status` handler (`GET /status/<token>`)
composed with the storage service: resolve `token:{token}` in Redis
(miss → 404 invalid-or-expired-token), call storage `get_file_status`
(non-200 → gateway 404), and forward its JSON body. -/
def gatewayStatus (tok now : Nat) (st : SysState) : GwStatusRes :=
  match cacheLookupToken now tok st with
  | none => .invalidLink
  | some fid =>
    match get_file_status fid tok now st with
    | .notFound => .notFound
    | .cachedMeta m d c => .okCached m d c
    | .full r s => .okStatus r s

/-- `int(os.getenv('DEFAULT_EXPIRY_HOURS', 24))` — the environment
default used by the gateway, both as the fallback expiry passed to the
storage service and as the hard-coded TTL of the `token:{token}` cache
entry. -/
def DEFAULT_EXPIRY_HOURS : Nat := 24

/-- `int(os.getenv('MAX_EXPIRY_HOURS', 168))`. -/
def MAX_EXPIRY_HOURS : Nat := 168

/-- `expiry_hours or int(os.getenv('DEFAULT_EXPIRY_HOURS', 24))` — the
expiry forwarded to the storage service; Python `or` treats both a
missing value and `0` as falsy. -/
def effectiveExpiryHours (o : Option Nat) : Nat :=
  match o with
  | none => DEFAULT_EXPIRY_HOURS
  | some h => if h == 0 then DEFAULT_EXPIRY_HOURS else h

/-- Result of the gateway `upload_file` handler. -/
inductive UploadRes
| badType
| expiryTooLong
| encryptionFailed
| storageFailed
| uploaded (file_id download_token expires_at : Nat)
deriving DecidableEq

/-- Gateway `upload_file` (`POST /upload`) composed with the storage
service, with the encryption call modelled (identity on content, key
material = password).  `allowed` is the result of
`allowed_file(filename)`; `expiry_hours` above `MAX_EXPIRY_HOURS` is
rejected before any external call (Python `if expiry_hours and ...`
skips the check for `0`/missing); the identifiers `fid` (from
`secrets.token_hex(16)`) and `tok` (from `secrets.token_urlsafe(32)`)
are inputs of the model.  On storage success the gateway caches
`token:{download_token} → file_id` with `setex` TTL
`DEFAULT_EXPIRY_HOURS * 3600` — the requested expiry is not used for
this TTL in the source. -/
def upload_file (allowed : Bool) (expiry_hours : Option Nat) (password : Option Nat)
    (fileBytes filename fsize ctype fid tok suffix now : Nat)
    (blob_ok db_ok : Bool) (st : SysState) : UploadRes × SysState :=
  if !allowed then (.badType, st)
  else if (match expiry_hours with
           | some h => !(h == 0) && decide (h > MAX_EXPIRY_HOURS)
           | none => false) then (.expiryTooLong, st)
  else
    let req : StoreReq :=
      { file_id := fid, filename := filename, encrypted_content := fileBytes,
        encryption_key := password, file_size := fsize, download_token := tok,
        expiry_hours := effectiveExpiryHours expiry_hours, content_type := ctype }
    match store_file req suffix now blob_ok db_ok st with
    | (.stored ea, st1, _) =>
      (.uploaded fid tok ea,
        { st1 with tokenCache :=
            st1.tokenCache ++ [(tok, fid, now + DEFAULT_EXPIRY_HOURS * 3600)] })
    | (_, st1, _) => (.storageFailed, st1)


/-- Per-candidate outcome of the blob delete (and the candidate's
try-block) in the worker's cleanup sweeps: `okAll` — `remove_object`
and the following statements succeed; `noSuchKey` — `remove_object`
raises `S3Error` with code `NoSuchKey`; `s3ErrOther` — `remove_object`
raises any other `S3Error`. -/
inductive CleanOutcome
| okAll
| noSuchKey
| s3ErrOther
deriving DecidableEq

/-- One candidate of a worker sweep (`cleanup_expired_files` and
`cleanup_downloaded_files` in `services/background-worker/worker.py`
share the same per-candidate try/except, differing only in the audit
operation `op` they log), inside its per-candidate `try`: on success,
delete the blob, INSERT an `op` row into `file_audit_log`, DELETE the
`files` row, and delete the Redis key `file_meta:{file_id}`; on
`NoSuchKey`, only DELETE the `files` row (no audit insert in the
source); on any other `S3Error`, log and leave everything in place.
Both error arms fall through to the next candidate. -/
def cleanupCandidate (op : AuditOp) (outcome : Nat → CleanOutcome) (c : FileRecord)
    (st : SysState) : SysState :=
  match outcome c.file_id with
  | .okAll =>
    { st with
      blobs := st.blobs.filter (fun b => b.1 != c.minioObjectName),
      auditLog := st.auditLog ++ [{ file_id := c.file_id, operation := op }],
      db := st.db.filter (fun r => r.file_id != c.file_id),
      metaCache := st.metaCache.filter (fun m => m.file_id != c.file_id) }
  | .noSuchKey =>
    { st with db := st.db.filter (fun r => r.file_id != c.file_id) }
  | .s3ErrOther => st

/-- A worker sweep's per-candidate loop over a fixed candidate list,
returning `deleted_count` and the final state.  The loop body never
aborts the sweep: every candidate is processed whatever happened to the
previous ones, and `deleted_count` also counts the `NoSuchKey` arm. -/
def runCleanup (op : AuditOp) (outcome : Nat → CleanOutcome) :
    List FileRecord → SysState → Nat × SysState
  | [], st => (0, st)
  | c :: rest, st =>
    let out := runCleanup op outcome rest (cleanupCandidate op outcome c st)
    ((if outcome c.file_id == CleanOutcome.s3ErrOther then 0 else 1) + out.1, out.2)

/-- Worker `cleanup_expired_files`: SELECT the candidates
(`expires_at < CURRENT_TIMESTAMP`), then run the per-candidate loop,
logging `expired_cleanup` audit rows. -/
def cleanup_expired_files (outcome : Nat → CleanOutcome) (now : Nat)
    (st : SysState) : Nat × SysState :=
  runCleanup AuditOp.expired_cleanup outcome
    (st.db.filter (fun r => decide (r.expires_at < now))) st

/-- Worker `cleanup_downloaded_files`: SELECT the candidates
(`is_downloaded = TRUE AND downloaded_at < CURRENT_TIMESTAMP -
INTERVAL '1 hour'`), then run the same per-candidate loop, logging
`downloaded_cleanup` audit rows. -/
def cleanup_downloaded_files (outcome : Nat → CleanOutcome) (now : Nat)
    (st : SysState) : Nat × SysState :=
  runCleanup AuditOp.downloaded_cleanup outcome
    (st.db.filter (fun r => r.is_downloaded &&
      (match r.downloaded_at with
       | some t => decide (t + 3600 < now)
       | none => false))) st

/-- One candidate of the storage-service `/cleanup/expired` endpoint
(`cleanup_expired_files` in `services/storage-service/app.py`): inside
its per-candidate `try`, delete the blob, DELETE the `files` row, and
delete the Redis key `file_meta:{file_id}` — there is no audit INSERT
on any path.  The only handler is a generic `except Exception`, so any
blob-delete error — an `S3Error` with code `NoSuchKey` included — aborts
that candidate, leaving its row (and count) untouched, and falls
through to the next candidate. -/
def storageCleanupCandidate (outcome : Nat → CleanOutcome) (c : FileRecord)
    (st : SysState) : SysState :=
  match outcome c.file_id with
  | .okAll =>
    { st with
      blobs := st.blobs.filter (fun b => b.1 != c.minioObjectName),
      db := st.db.filter (fun r => r.file_id != c.file_id),
      metaCache := st.metaCache.filter (fun m => m.file_id != c.file_id) }
  | .noSuchKey => st
  | .s3ErrOther => st

/-- The storage-service sweep's per-candidate loop: `deleted_count` is
incremented only inside the fully successful try block. -/
def runStorageCleanup (outcome : Nat → CleanOutcome) :
    List FileRecord → SysState → Nat × SysState
  | [], st => (0, st)
  | c :: rest, st =>
    let out := runStorageCleanup outcome rest (storageCleanupCandidate outcome c st)
    ((if outcome c.file_id == CleanOutcome.okAll then 1 else 0) + out.1, out.2)

/-- Storage-service `cleanup_expired_files` (`POST /cleanup/expired`):
SELECT the candidates (`expires_at < CURRENT_TIMESTAMP AND
is_downloaded = FALSE` — unlike the worker, downloaded rows are
excluded), then run the per-candidate loop. -/
def storage_cleanup_expired_files (outcome : Nat → CleanOutcome) (now : Nat)
    (st : SysState) : Nat × SysState :=
  runStorageCleanup outcome
    (st.db.filter (fun r => decide (r.expires_at < now) && !r.is_downloaded)) st

/-- The audit rows a worker sweep appends: one `op` entry per candidate
whose whole try-block succeeded, in candidate order. -/
def sweepAudits (op : AuditOp) (outcome : Nat → CleanOutcome)
    (cands : List FileRecord) : List AuditEntry :=
  (cands.filter (fun c => outcome c.file_id == CleanOutcome.okAll)).map
    (fun c => { file_id := c.file_id, operation := op })

/-- The sixteen lowercase hexadecimal digits produced by `bytes.hex()`:
`0`–`9` followed by `a`–`f`. -/
def hexDigits : List Char :=
  (List.range 16).map Nat.digitChar

/-- `secrets.token_hex(n)`: the 2n-character lowercase-hex encoding of n
random bytes (`file_id = secrets.token_hex(16)` in the gateway). -/
def pythonTokenHex (bytes : List Nat) : List Char :=
  bytes.flatMap (fun b => [hexDigits.getD (b / 16) '0', hexDigits.getD (b % 16) '0'])

/-- The URL-safe base64 alphabet of `base64.urlsafe_b64encode`. -/
def b64Char (n : Nat) : Char :=
  if n < 26 then Char.ofNat (65 + n)
  else if n < 52 then Char.ofNat (97 + (n - 26))
  else if n < 62 then Char.ofNat (48 + (n - 52))
  else if n == 62 then '-'
  else '_'

/-- URL-safe base64 without padding, as produced by
`base64.urlsafe_b64encode(..).rstrip(b'=')`: 3-byte groups become 4
characters; a trailing group of 1 or 2 bytes becomes 2 or 3
characters. -/
def b64UrlEncode : List Nat → List Char
  | [] => []
  | [b1] => [b64Char (b1 / 4), b64Char (b1 % 4 * 16)]
  | [b1, b2] => [b64Char (b1 / 4), b64Char (b1 % 4 * 16 + b2 / 16), b64Char (b2 % 16 * 4)]
  | b1 :: b2 :: b3 :: rest =>
    b64Char (b1 / 4) :: b64Char (b1 % 4 * 16 + b2 / 16) ::
      b64Char (b2 % 16 * 4 + b3 / 64) :: b64Char (b3 % 64) :: b64UrlEncode rest

/-- `secrets.token_urlsafe(n)`: the unpadded URL-safe base64 encoding of
n random bytes (`download_token = secrets.token_urlsafe(32)` via
`generate_token` in the gateway). -/
def pythonTokenUrlsafe (bytes : List Nat) : List Char :=
  b64UrlEncode bytes

/-- The URL-safe token alphabet: ASCII letters, digits, `-` and `_`. -/
def isUrlsafeChar (c : Char) : Bool :=
  ('A' ≤ c && c ≤ 'Z') || ('a' ≤ c && c ≤ 'z') || ('0' ≤ c && c ≤ '9') ||
    c == '-' || c == '_'

/-- The candidate set of the worker's expired sweep:
`SELECT .. FROM files WHERE expires_at < CURRENT_TIMESTAMP`. -/
def expiredCands (now : Nat) (st : SysState) : List FileRecord :=
  st.db.filter (fun r => decide (r.expires_at < now))

/-- The candidate set of the worker's downloaded sweep:
`SELECT .. FROM files WHERE is_downloaded = TRUE AND downloaded_at <
CURRENT_TIMESTAMP - INTERVAL '1 hour'`. -/
def downloadedCands (now : Nat) (st : SysState) : List FileRecord :=
  st.db.filter (fun r => r.is_downloaded &&
    (match r.downloaded_at with
     | some t => decide (t + 3600 < now)
     | none => false))

/-- The candidate set of the storage-service `/cleanup/expired` sweep:
`SELECT .. FROM files WHERE expires_at < CURRENT_TIMESTAMP AND
is_downloaded = FALSE`. -/
def storageExpiredCands (now : Nat) (st : SysState) : List FileRecord :=
  st.db.filter (fun r => decide (r.expires_at < now) && !r.is_downloaded)

/-- Which rows survive a worker sweep over `cands`: a row stays exactly
when no candidate carrying its `file_id` had its DELETE reached (i.e.
every such candidate hit a non-`NoSuchKey` blob-delete error). -/
def keepRow (outcome : Nat → CleanOutcome) (cands : List FileRecord)
    (r : FileRecord) : Bool :=
  cands.all (fun c => c.file_id != r.file_id ||
    outcome c.file_id == CleanOutcome.s3ErrOther)

/-- Which rows survive the storage-service sweep over `cands`: a row
stays exactly when no candidate carrying its `file_id` got through its
whole try block — any exception, `NoSuchKey` included, aborts the
candidate before its DELETE. -/
def keepRowStorage (outcome : Nat → CleanOutcome) (cands : List FileRecord)
    (r : FileRecord) : Bool :=
  cands.all (fun c => c.file_id != r.file_id ||
    outcome c.file_id != CleanOutcome.okAll)

/-- The empty system state. -/
def emptyState : SysState :=
  { db := [], blobs := [], tokenCache := [], metaCache := [], auditLog := [] }

/-- A concrete fresh (never downloaded, unexpired at times below 100)
file record used by witnesses and counterexamples. -/
def sampleRecord : FileRecord :=
  { file_id := 1, filename := 10, file_size := 77, content_type := 11,
    download_token := 2, encryption_key := some 9, created_at := 0,
    expires_at := 100, downloaded_at := none, is_downloaded := false,
    download_count := 0, minioObjectName := (1, 5) }

/-- The `file_meta:{1}` cache entry matching `sampleRecord`. -/
def sampleMeta : FileMetaCache :=
  { file_id := 1, filename := 10, file_size := 77, content_type := 11,
    expires_at := 100, minioObjectName := (1, 5), cache_expire := 3600 }

/-- A concrete state as left by a successful upload of `sampleRecord`:
row, blob, live `token:{2}` entry and live `file_meta:{1}` entry. -/
def sampleState : SysState :=
  { db := [sampleRecord], blobs := [((1, 5), 123)],
    tokenCache := [(2, 1, 86400)], metaCache := [sampleMeta], auditLog := [] }

/-- `sampleRecord` after one completed download. -/
def sampleDownloadedRecord : FileRecord :=
  { sampleRecord with is_downloaded := true, downloaded_at := some 50,
                      download_count := 1 }

/-- A concrete store request used by witnesses. -/
def reqW : StoreReq :=
  { file_id := 3, filename := 12, encrypted_content := 55,
    encryption_key := none, file_size := 77, download_token := 4,
    expiry_hours := 1, content_type := 13 }

/-- A blob-delete oracle under which every candidate's `remove_object`
raises `S3Error` with code `NoSuchKey`. -/
def outcomeNoKey : Nat → CleanOutcome := fun _ => CleanOutcome.noSuchKey

theorem retrieve_state_eq (fid tok now : Nat) (st : SysState) :
    (retrieve_file fid tok now st).2 = st := by
  unfold retrieve_file
  split
  · rfl
  · split
    · rfl
    · split
      · rfl
      · split <;> rfl

/-- Claim C10: `Retrieve` is read-only on durable state: for every
`(fileId, token)` input and every outcome, the storage-service
`retrieve_file` handler returns the system state unchanged — no field
of any file record is modified, and no blob, metadata row, or cache
entry is deleted.  A file is consumed only by the separate
`mark_file_downloaded` operation. -/
theorem c10_retrieve_readonly (fid tok now : Nat) (st : SysState) :
    (retrieve_file fid tok now st).2.db = st.db ∧
    (retrieve_file fid tok now st).2.blobs = st.blobs ∧
    (retrieve_file fid tok now st).2 = st := by
  have h := retrieve_state_eq fid tok now st
  exact ⟨by rw [h], by rw [h], h⟩

/-- Claim C4: `retrieve_file` returns content only when a record matches
both `file_id` and `download_token` exactly, `now ≤ expires_at`, and
`is_downloaded` is false; it returns the not-found error when no record
matches both, `expired` when `now > expires_at`, `alreadyDownloaded`
when the record is flagged downloaded (and not expired), and it never
returns content when either of the latter two conditions holds. -/
theorem c4_retrieve_result (fid tok now : Nat) (st : SysState) :
    (st.db.find? (fun r => r.file_id == fid && r.download_token == tok) = none →
      (retrieve_file fid tok now st).1 = RetrieveRes.notFound) ∧
    (∀ r, st.db.find? (fun r => r.file_id == fid && r.download_token == tok) = some r →
      now > r.expires_at → (retrieve_file fid tok now st).1 = RetrieveRes.expired) ∧
    (∀ r, st.db.find? (fun r => r.file_id == fid && r.download_token == tok) = some r →
      ¬ now > r.expires_at → r.is_downloaded = true →
      (retrieve_file fid tok now st).1 = RetrieveRes.alreadyDownloaded) ∧
    (∀ fi fn fs ct ec ek ca ea,
      (retrieve_file fid tok now st).1 = RetrieveRes.ok fi fn fs ct ec ek ca ea →
      ∃ r, st.db.find? (fun r => r.file_id == fid && r.download_token == tok) = some r ∧
        now ≤ r.expires_at ∧ r.is_downloaded = false) := by
  refine ⟨?_, ?_, ?_, ?_⟩
  · intro h
    simp only [retrieve_file, h]
  · intro r h hexp
    simp only [retrieve_file, h, if_pos hexp]
  · intro r h hexp hdl
    simp only [retrieve_file, h, if_neg hexp, hdl, if_pos trivial]
  · intro fi fn fs ct ec ek ca ea h
    rcases hf : st.db.find? (fun r => r.file_id == fid && r.download_token == tok) with _ | r
    · rw [(by simp only [retrieve_file, hf] :
        (retrieve_file fid tok now st).1 = RetrieveRes.notFound)] at h
      exact absurd h (by simp)
    · by_cases hexp : now > r.expires_at
      · rw [(by simp only [retrieve_file, hf, if_pos hexp] :
          (retrieve_file fid tok now st).1 = RetrieveRes.expired)] at h
        exact absurd h (by simp)
      · by_cases hdl : r.is_downloaded = true
        · rw [(by simp only [retrieve_file, hf, if_neg hexp, hdl, if_pos trivial] :
            (retrieve_file fid tok now st).1 = RetrieveRes.alreadyDownloaded)] at h
          exact absurd h (by simp)
        · exact ⟨r, hf, Nat.le_of_not_lt hexp, Bool.eq_false_iff.mpr hdl⟩

/-- Witness for C4 at a concrete state: `sampleRecord` matched at time
200 (past its expiry 100) yields the `expired` error. -/
theorem c4_witness :
    (retrieve_file 1 2 200 sampleState).1 = RetrieveRes.expired :=
  (c4_retrieve_result 1 2 200 sampleState).2.1 sampleRecord (by decide) (by decide)

/-- Counterexample to claim C1 as stated: in a state whose only record
already has `is_downloaded = true` and `download_count = 1`, a further
`mark_file_downloaded` call with the matching token does not fail with
a conflict — it succeeds (HTTP 200) and updates the record again,
raising `download_count` to 2: the UPDATE's WHERE clause never tests
`is_downloaded`. -/
theorem c1_counterexample :
    (mark_file_downloaded 1 2 60
      { emptyState with db := [sampleDownloadedRecord] }).1 = MarkRes.ok ∧
    (mark_file_downloaded 1 2 60
      { emptyState with db := [sampleDownloadedRecord] }).2.db =
      [{ sampleDownloadedRecord with downloaded_at := some 60, download_count := 2 }] := by
  decide

/-- Claim C1, amended: `mark_file_downloaded` updates the file record
(setting `is_downloaded`, `downloaded_at`, incrementing
`download_count`) whenever some record matches both `file_id` and
`download_token`, regardless of the current `is_downloaded` value; it
fails (404, leaving the state unchanged) exactly when no record
matches.  Consequently `is_downloaded` is still monotone (the update
only ever sets it to true), but the false→true transition is not the
only update: a second call on an already-downloaded record succeeds
again and increments `download_count` past 1. -/
theorem c1_mark_characterization (fid tok now now' : Nat) (st : SysState) :
    (st.db.any (markMatches fid tok) = false →
      mark_file_downloaded fid tok now st = (MarkRes.notFound, st)) ∧
    (st.db.any (markMatches fid tok) = true →
      (mark_file_downloaded fid tok now st).1 = MarkRes.ok ∧
      (mark_file_downloaded fid tok now st).2.db =
        st.db.map (fun r => if markMatches fid tok r then markUpdate now r else r)) ∧
    (st.db.any (markMatches fid tok) = true →
      (mark_file_downloaded fid tok now'
        ((mark_file_downloaded fid tok now st).2)).1 = MarkRes.ok) := by
  refine ⟨?_, ?_, ?_⟩
  · intro h
    simp only [mark_file_downloaded, h]
    simp
  · intro h
    simp only [mark_file_downloaded, h]
    simp
  · intro h
    have h2 : ((mark_file_downloaded fid tok now st).2).db.any (markMatches fid tok) = true := by
      simp only [mark_file_downloaded, h, if_pos trivial]
      rcases List.any_eq_true.mp h with ⟨r, hr, hm⟩
      refine List.any_eq_true.mpr ⟨markUpdate now r, ?_, ?_⟩
      · exact List.mem_map.mpr ⟨r, hr, by rw [if_pos hm]⟩
      · exact hm
    generalize hS : (mark_file_downloaded fid tok now st).2 = S at h2 ⊢
    simp only [mark_file_downloaded, h2]
    simp

/-- Witness for C1's amended theorem at a concrete state: marking the
fresh `sampleRecord` succeeds and flips it to downloaded with count 1,
and marking again still succeeds. -/
theorem c1_witness :
    (mark_file_downloaded 1 2 50 sampleState).1 = MarkRes.ok ∧
    (mark_file_downloaded 1 2 50 sampleState).2.db =
      [{ sampleRecord with is_downloaded := true, downloaded_at := some 50,
                           download_count := 1 }] ∧
    (mark_file_downloaded 1 2 60 ((mark_file_downloaded 1 2 50 sampleState).2)).1 =
      MarkRes.ok := by
  refine ⟨((c1_mark_characterization 1 2 50 60 sampleState).2.1 (by decide)).1, ?_, ?_⟩
  · have h := ((c1_mark_characterization 1 2 50 60 sampleState).2.1 (by decide)).2
    rw [h]
    decide
  · exact (c1_mark_characterization 1 2 50 60 sampleState).2.2 (by decide)

/-- Counterexample to claim C2 as stated: when the `mark_downloaded`
POST returns a failing HTTP status (here 500), the gateway neither
aborts with `ServiceUnavailable` nor withholds the content — the
response status of the mark call is never inspected, so the handler
deletes the token-cache entry and serves the file anyway. -/
theorem c2_counterexample :
    (download_file (some 1) (CallOutcome.ok 0) (CallOutcome.ok 7)
      (CallOutcome.httpErr 500)).1 = GwDlRes.content 7 ∧
    GwEffect.cacheDeleteTok ∈
      (download_file (some 1) (CallOutcome.ok 0) (CallOutcome.ok 7)
        (CallOutcome.httpErr 500)).2 ∧
    (download_file (some 1) (CallOutcome.ok 0) (CallOutcome.ok 7)
      (CallOutcome.httpErr 500)).1 ≠ GwDlRes.unavailable := by
  decide

/-- Claim C2, amended: in the gateway `download_file` handler the
token-cache deletion happens only after the `mark_downloaded` call has
returned (the only trace containing the deletion is retrieve, decrypt,
mark, delete, in that order); if the `mark_downloaded` call raises a
transport exception or timeout, the handler aborts with 503
`ServiceUnavailable`, returns no file content and does not delete the
cache entry; but a `mark_downloaded` call that returns a failing HTTP
status is ignored — the handler still deletes the cache entry and
returns the content. -/
theorem c2_mark_cache_order (ch : Option Nat) (r d m : CallOutcome Nat) :
    (GwEffect.cacheDeleteTok ∈ (download_file ch r d m).2 →
      (download_file ch r d m).2 =
        [GwEffect.callRetrieve, GwEffect.callDecrypt, GwEffect.callMark,
         GwEffect.cacheDeleteTok]) ∧
    (∀ fid p c, ch = some fid → r = CallOutcome.ok p → d = CallOutcome.ok c →
      m = CallOutcome.exn →
      (download_file ch r d m).1 = GwDlRes.unavailable ∧
      GwEffect.cacheDeleteTok ∉ (download_file ch r d m).2) ∧
    (∀ fid p c code, ch = some fid → r = CallOutcome.ok p → d = CallOutcome.ok c →
      m = CallOutcome.httpErr code →
      (download_file ch r d m).1 = GwDlRes.content c ∧
      GwEffect.cacheDeleteTok ∈ (download_file ch r d m).2) := by
  refine ⟨?_, ?_, ?_⟩
  · intro hmem
    rcases ch with _ | fid
    · simp [download_file] at hmem
    · rcases r with p | rcode | _
      · rcases d with c | dcode | _
        · rcases m with q | mcode | _
          · simp [download_file]
          · simp [download_file]
          · simp [download_file] at hmem
        · by_cases h : dcode = 401 <;> simp [download_file, h] at hmem
        · simp [download_file] at hmem
      · by_cases h : rcode = 404 <;> simp [download_file, h] at hmem
      · simp [download_file] at hmem
  · intro fid p c hch hr hd hm
    subst hch; subst hr; subst hd; subst hm
    simp [download_file]
  · intro fid p c code hch hr hd hm
    subst hch; subst hr; subst hd; subst hm
    simp [download_file]

/-- Witness for C2's amended theorem: at concrete call outcomes, a
transport failure of the mark call yields 503 with no cache deletion,
and a failing mark HTTP status still yields the content with the cache
entry deleted. -/
theorem c2_witness :
    ((download_file (some 1) (CallOutcome.ok 0) (CallOutcome.ok 7)
        CallOutcome.exn).1 = GwDlRes.unavailable ∧
      GwEffect.cacheDeleteTok ∉
        (download_file (some 1) (CallOutcome.ok 0) (CallOutcome.ok 7)
          CallOutcome.exn).2) ∧
    (download_file (some 1) (CallOutcome.ok 0) (CallOutcome.ok 7)
      (CallOutcome.httpErr 404)).1 = GwDlRes.content 7 :=
  ⟨(c2_mark_cache_order (some 1) (CallOutcome.ok 0) (CallOutcome.ok 7)
      CallOutcome.exn).2.1 1 0 7 rfl rfl rfl rfl,
   ((c2_mark_cache_order (some 1) (CallOutcome.ok 0) (CallOutcome.ok 7)
      (CallOutcome.httpErr 404)).2.2 1 0 7 404 rfl rfl rfl rfl).1⟩

/-- Claim C3: for a stored file protected by password `pw`, a gateway
download with an incorrect password stops at the decrypt step (the
modelled encryption service answers 401), returns `Unauthorized` with
the system state completely unchanged — in particular the
`token:{token}` cache entry is not deleted and `is_downloaded` stays
false — so a subsequent download with the correct password still
succeeds and returns the content. -/
theorem c3_wrong_password (tok now fid pw : Nat) (wrong : Option Nat)
    (st : SysState) (r : FileRecord) (b : (Nat × Nat) × Nat)
    (hcache : cacheLookupToken now tok st = some fid)
    (hfind : st.db.find? (fun x => x.file_id == fid && x.download_token == tok) = some r)
    (hexp : ¬ now > r.expires_at)
    (hdl : r.is_downloaded = false)
    (hblob : st.blobs.find? (fun x => x.1 == r.minioObjectName) = some b)
    (hkey : r.encryption_key = some pw)
    (hwrong : wrong ≠ some pw) :
    gatewayDownload tok wrong now st = (DlRes.invalidPassword, st) ∧
    (gatewayDownload tok (some pw) now st).1 =
      DlRes.content b.2 r.filename r.content_type := by
  have hret : retrieve_file fid tok now st =
      (RetrieveRes.ok r.file_id r.filename r.file_size r.content_type b.2
        r.encryption_key r.created_at r.expires_at, st) := by
    simp only [retrieve_file, hfind]
    rw [if_neg hexp]
    simp only [hdl]
    rw [if_neg Bool.false_ne_true]
    simp only [hblob]
  have hne : (some pw == wrong) = false := beq_eq_false_iff_ne.mpr (Ne.symm hwrong)
  constructor
  · simp only [gatewayDownload, hcache, hret, modelDecrypt, hkey, hne]
    simp
  · simp only [gatewayDownload, hcache, hret, modelDecrypt, hkey, beq_self_eq_true]
    simp

/-- Witness for C3 at a concrete state: wrong password `8` against
stored password `9` answers 401 leaving `sampleState` intact; the right
password then downloads the content. -/
theorem c3_witness :
    gatewayDownload 2 (some 8) 10 sampleState = (DlRes.invalidPassword, sampleState) ∧
    (gatewayDownload 2 (some 9) 10 sampleState).1 = DlRes.content 123 10 11 :=
  c3_wrong_password 2 10 1 9 (some 8) sampleState sampleRecord ((1, 5), 123)
    (by decide) (by decide) (by decide) (by decide) (by decide) (by decide) (by decide)

/-- Claim C5: in `store_file` the blob write is the first external
effect (its object name is `file_id` plus the random suffix), the
metadata INSERT is issued only when the blob write succeeded, the row is
inserted with `expires_at = now + expiry_hours * 3600`, and the
`file_meta` cache entry is set only after the metadata commit (the only
trace containing the cache set is blob-put, insert, commit, cache-set in
that order); consequently `store_file` preserves the invariant that
every cache entry points at an existing metadata row. -/
theorem c5_store_order (req : StoreReq) (suffix now : Nat) (blob_ok db_ok : Bool)
    (st : SysState) :
    ((store_file req suffix now blob_ok db_ok st).2.2.head? =
      some (StoreEffect.blobPut (req.file_id, suffix))) ∧
    (StoreEffect.dbInsert req.file_id ∈ (store_file req suffix now blob_ok db_ok st).2.2 →
      blob_ok = true) ∧
    (∀ f ttl, StoreEffect.cacheSetMeta f ttl ∈
        (store_file req suffix now blob_ok db_ok st).2.2 →
      (store_file req suffix now blob_ok db_ok st).2.2 =
        [StoreEffect.blobPut (req.file_id, suffix), StoreEffect.dbInsert req.file_id,
         StoreEffect.dbCommit, StoreEffect.cacheSetMeta req.file_id (req.expiry_hours * 3600)]) ∧
    (blob_ok = true → db_ok = true →
      (store_file req suffix now blob_ok db_ok st).2.1.db =
        st.db ++ [storedRow req suffix now] ∧
      (storedRow req suffix now).expires_at = now + req.expiry_hours * 3600) ∧
    ((∀ m ∈ st.metaCache, ∃ r ∈ st.db, r.file_id = m.file_id) →
      ∀ m ∈ (store_file req suffix now blob_ok db_ok st).2.1.metaCache,
        ∃ r ∈ (store_file req suffix now blob_ok db_ok st).2.1.db,
          r.file_id = m.file_id) := by
  refine ⟨?_, ?_, ?_, ?_, ?_⟩
  · cases blob_ok <;> cases db_ok <;> simp [store_file]
  · intro hmem
    cases blob_ok
    · simp [store_file] at hmem
    · rfl
  · intro f ttl hmem
    cases blob_ok
    · simp [store_file] at hmem
    · cases db_ok
      · simp [store_file] at hmem
      · simp [store_file]
  · intro hb hd
    subst hb; subst hd
    exact ⟨by simp [store_file], rfl⟩
  · intro hinv m hm
    cases blob_ok
    · simp only [store_file, Bool.not_false, if_pos trivial] at hm ⊢
      exact hinv m hm
    · cases db_ok
      · simp [store_file] at hm ⊢
        rcases hinv m hm with ⟨r, hr, he⟩
        exact ⟨r, hr, he⟩
      · simp [store_file] at hm ⊢
        rcases hm with hm | hm
        · rcases hinv m hm with ⟨r, hr, he⟩
          exact ⟨r, Or.inl hr, he⟩
        · subst hm
          exact ⟨storedRow req suffix now, Or.inr rfl, rfl⟩

/-- Witness for C5 at concrete inputs: a fully successful store of
`reqW` (expiry 1 hour) at time 0 appends exactly the stored row, whose
expiry is `0 + 1 * 3600`. -/
theorem c5_witness :
    (store_file reqW 5 0 true true emptyState).2.1.db =
      emptyState.db ++ [storedRow reqW 5 0] ∧
    (storedRow reqW 5 0).expires_at = 0 + reqW.expiry_hours * 3600 :=
  (c5_store_order reqW 5 0 true true emptyState).2.2.2.1 rfl rfl

theorem find_token_filter_none (tok : Nat) (P : Nat × Nat × Nat → Bool)
    (l : List (Nat × Nat × Nat)) :
    (l.filter (fun e => e.1 != tok)).find? (fun e => e.1 == tok && P e) = none := by
  induction l with
  | nil => rfl
  | cons e rest ih =>
    by_cases h : e.1 = tok
    · have hb : (e.1 != tok) = false := by simp [bne, h]
      simpa [List.filter_cons, hb] using ih
    · have hb : (e.1 == tok) = false := beq_eq_false_iff_ne.mpr h
      have hb2 : (e.1 != tok) = true := by simp [bne, hb]
      simpa [List.filter_cons, hb2, List.find?_cons, hb] using ih

theorem cacheLookup_after_delete (now tok : Nat) (st : SysState) :
    cacheLookupToken now tok
      { st with tokenCache := st.tokenCache.filter (fun e => e.1 != tok) } = none := by
  unfold cacheLookupToken
  rw [find_token_filter_none tok (fun e => decide (now < e.2.2))]

/-- Counterexample to claim C6 as stated: on `sampleState` (a freshly
uploaded file, all caches warm) a download succeeds, after which
`Status` does not report `downloaded` — the gateway deleted the
`token:{2}` entry during the download, so `Status` answers 404
invalid-or-expired-token.  Moreover even before the download, with the
`file_meta` cache warm, `Status` returns the raw cached metadata with no
computed status field at all, rather than `available`. -/
theorem c6_counterexample :
    (gatewayDownload 2 (some 9) 10 sampleState).1 = DlRes.content 123 10 11 ∧
    gatewayStatus 2 10 ((gatewayDownload 2 (some 9) 10 sampleState).2) =
      GwStatusRes.invalidLink ∧
    gatewayStatus 2 10 sampleState = GwStatusRes.okCached sampleMeta false 0 := by
  decide

/-- Claim C6, amended: `Status` resolves the token through the gateway
token cache and answers 404 whenever that entry is absent — in
particular after any successful download, which deletes the entry.
When the token resolves, the storage service reads its `file_meta`
cache first and falls back to the metadata store: on a live cache hit
whose row still exists it returns the raw metadata with no status
field; on the database path it computes `downloaded` when
`is_downloaded`, else `expired` when `now > expires_at`, else
`available`; and 404 when the row is gone. -/
theorem c6_status_characterization (tok now : Nat) (st : SysState) :
    (cacheLookupToken now tok st = none →
      gatewayStatus tok now st = GwStatusRes.invalidLink) ∧
    (∀ fid m r, cacheLookupToken now tok st = some fid →
      st.metaCache.find? (fun x => x.file_id == fid && now < x.cache_expire) = some m →
      st.db.find? (fun x => x.file_id == fid && x.download_token == tok) = some r →
      gatewayStatus tok now st = GwStatusRes.okCached m r.is_downloaded r.download_count) ∧
    (∀ fid r, cacheLookupToken now tok st = some fid →
      st.metaCache.find? (fun x => x.file_id == fid && now < x.cache_expire) = none →
      st.db.find? (fun x => x.file_id == fid && x.download_token == tok) = some r →
      gatewayStatus tok now st = GwStatusRes.okStatus r
        (if r.is_downloaded then StatusKind.downloaded
         else if now > r.expires_at then StatusKind.expired
         else StatusKind.available)) ∧
    (∀ fid, cacheLookupToken now tok st = some fid →
      st.db.find? (fun x => x.file_id == fid && x.download_token == tok) = none →
      gatewayStatus tok now st = GwStatusRes.notFound) ∧
    (∀ pw bts f c now', (gatewayDownload tok pw now st).1 = DlRes.content bts f c →
      gatewayStatus tok now' ((gatewayDownload tok pw now st).2) =
        GwStatusRes.invalidLink) := by
  refine ⟨?_, ?_, ?_, ?_, ?_⟩
  · intro h
    simp only [gatewayStatus, h]
  · intro fid m r hc hm hr
    simp only [gatewayStatus, hc, get_file_status, hm, hr]
  · intro fid r hc hm hr
    simp only [gatewayStatus, hc, get_file_status, hm, statusDbFallback, hr]
  · intro fid hc hr
    rcases hm : st.metaCache.find? (fun x => x.file_id == fid && now < x.cache_expire)
        with _ | m
    · simp only [gatewayStatus, hc, get_file_status, hm, statusDbFallback, hr]
    · simp only [gatewayStatus, hc, get_file_status, hm, hr, statusDbFallback]
  · intro pw bts f c now' hdl
    rcases hc : cacheLookupToken now tok st with _ | fid
    · have hEq : gatewayDownload tok pw now st = (DlRes.invalidLink, st) := by
        simp only [gatewayDownload, hc]
      rw [hEq] at hdl
      simp at hdl
    · rcases hret : retrieve_file fid tok now st with ⟨res, st0⟩
      cases res with
      | notFound =>
        have hEq : gatewayDownload tok pw now st = (DlRes.fileNotFound, st0) := by
          simp only [gatewayDownload, hc, hret]
        rw [hEq] at hdl
        simp at hdl
      | expired =>
        have hEq : gatewayDownload tok pw now st = (DlRes.storageError, st0) := by
          simp only [gatewayDownload, hc, hret]
        rw [hEq] at hdl
        simp at hdl
      | alreadyDownloaded =>
        have hEq : gatewayDownload tok pw now st = (DlRes.storageError, st0) := by
          simp only [gatewayDownload, hc, hret]
        rw [hEq] at hdl
        simp at hdl
      | blobMissing =>
        have hEq : gatewayDownload tok pw now st = (DlRes.fileNotFound, st0) := by
          simp only [gatewayDownload, hc, hret]
        rw [hEq] at hdl
        simp at hdl
      | ok fi fn fs ct ec ek ca ea =>
        cases hdec : modelDecrypt ec ek pw with
        | unauthorized =>
          have hEq : gatewayDownload tok pw now st = (DlRes.invalidPassword, st0) := by
            simp only [gatewayDownload, hc, hret, hdec]
          rw [hEq] at hdl
          simp at hdl
        | ok cb =>
          have hEq : gatewayDownload tok pw now st =
              (DlRes.content cb fn ct,
               { (mark_file_downloaded fid tok now st0).2 with
                 tokenCache := ((mark_file_downloaded fid tok now st0).2).tokenCache.filter
                   (fun e => e.1 != tok) }) := by
            simp only [gatewayDownload, hc, hret, hdec]
          rw [hEq]
          unfold gatewayStatus
          rw [cacheLookup_after_delete]

/-- Witness for C6's amended theorem: with a cold `file_meta` cache the
status of the fresh `sampleRecord` at time 10 is computed on the
database path as `available`. -/
theorem c6_witness :
    gatewayStatus 2 10 { sampleState with metaCache := [] } =
      GwStatusRes.okStatus sampleRecord StatusKind.available := by
  have h := (c6_status_characterization 2 10
    { sampleState with metaCache := [] }).2.2.1 1 sampleRecord
    (by decide) (by decide) (by decide)
  simpa using h

/-- Counterexample to claim C7 as stated: an upload requesting
`expiry_hours = 1` stores a row expiring at `now + 3600`, but the
gateway caches `token:{download_token}` with `setex` TTL
`DEFAULT_EXPIRY_HOURS * 3600 = 86400` — not the remaining time to
`expires_at`. -/
theorem c7_counterexample :
    (upload_file true (some 1) none 123 10 77 11 1 2 5 0 true true emptyState).1 =
      UploadRes.uploaded 1 2 3600 ∧
    (upload_file true (some 1) none 123 10 77 11 1 2 5 0 true true
      emptyState).2.tokenCache = [(2, 1, 86400)] ∧
    (86400 : Nat) ≠ 3600 := by
  decide

/-- Claim C7, amended: every successful upload caches
`token:{download_token} → file_id` with the fixed TTL
`DEFAULT_EXPIRY_HOURS * 3600` (24 hours), while the stored row expires
at `now + effectiveExpiryHours * 3600`; the cache TTL equals the
remaining time to `expires_at` exactly when the effective requested
expiry is the 24-hour default. -/
theorem c7_token_cache_ttl (allowed : Bool) (expiry password : Option Nat)
    (fileBytes filename fsize ctype fid tok suffix now : Nat)
    (blob_ok db_ok : Bool) (st : SysState) :
    ∀ fid' tok' ea,
      (upload_file allowed expiry password fileBytes filename fsize ctype
        fid tok suffix now blob_ok db_ok st).1 = UploadRes.uploaded fid' tok' ea →
      (upload_file allowed expiry password fileBytes filename fsize ctype
        fid tok suffix now blob_ok db_ok st).2.tokenCache =
        st.tokenCache ++ [(tok, fid, now + DEFAULT_EXPIRY_HOURS * 3600)] ∧
      ea = now + effectiveExpiryHours expiry * 3600 ∧
      (now + DEFAULT_EXPIRY_HOURS * 3600 = ea ↔
        effectiveExpiryHours expiry = DEFAULT_EXPIRY_HOURS) := by
  intro fid' tok' ea h
  cases allowed
  · simp [upload_file] at h
  · cases hcond : (match expiry with
        | some h' => !(h' == 0) && decide (h' > MAX_EXPIRY_HOURS)
        | none => false)
    · cases blob_ok
      · simp [upload_file, hcond, store_file] at h
      · cases db_ok
        · simp [upload_file, hcond, store_file] at h
        · simp [upload_file, hcond, store_file] at h ⊢
          obtain ⟨h1, h2, h3⟩ := h
          refine ⟨h3.symm, ?_, ?_⟩ <;> intro he <;> omega
    · simp [upload_file, hcond] at h

/-- Witness for C7's amended theorem: an upload with no requested
expiry takes the 24-hour default, so the cache TTL happens to match the
remaining lifetime. -/
theorem c7_witness :
    (upload_file true none none 123 10 77 11 1 2 5 0 true true
      emptyState).2.tokenCache =
      emptyState.tokenCache ++ [(2, 1, 0 + DEFAULT_EXPIRY_HOURS * 3600)] ∧
    86400 = 0 + effectiveExpiryHours none * 3600 ∧
    (0 + DEFAULT_EXPIRY_HOURS * 3600 = 86400 ↔
      effectiveExpiryHours none = DEFAULT_EXPIRY_HOURS) :=
  c7_token_cache_ttl true none none 123 10 77 11 1 2 5 0 true true emptyState
    1 2 86400 (by decide)

theorem bne_nat_comm (a b : Nat) : (a != b) = (b != a) := by
  by_cases h : a = b
  · simp [h]
  · have h1 : (a != b) = true := bne_iff_ne.mpr h
    have h2 : (b != a) = true := bne_iff_ne.mpr (Ne.symm h)
    rw [h1, h2]

theorem runCleanup_count (op : AuditOp) (outcome : Nat → CleanOutcome)
    (cands : List FileRecord) (st : SysState) :
    (runCleanup op outcome cands st).1 =
      (cands.filter (fun c => outcome c.file_id != CleanOutcome.s3ErrOther)).length := by
  induction cands generalizing st with
  | nil => rfl
  | cons c rest ih =>
    have hstep : (runCleanup op outcome (c :: rest) st).1 =
        (if outcome c.file_id == CleanOutcome.s3ErrOther then 0 else 1) +
          (runCleanup op outcome rest (cleanupCandidate op outcome c st)).1 := rfl
    rw [hstep, ih]
    cases hoc : outcome c.file_id <;> simp [List.filter_cons, hoc] <;> omega

theorem runCleanup_db (op : AuditOp) (outcome : Nat → CleanOutcome)
    (cands : List FileRecord) (st : SysState) :
    (runCleanup op outcome cands st).2.db = st.db.filter (keepRow outcome cands) := by
  induction cands generalizing st with
  | nil =>
    have h : st.db.filter (keepRow outcome []) = st.db.filter (fun _ => true) :=
      List.filter_congr (fun a _ => rfl)
    simp [runCleanup, h]
  | cons c rest ih =>
    have hstep : (runCleanup op outcome (c :: rest) st).2 =
        (runCleanup op outcome rest (cleanupCandidate op outcome c st)).2 := rfl
    rw [hstep, ih]
    cases hoc : outcome c.file_id with
    | s3ErrOther =>
      simp only [cleanupCandidate, hoc]
      apply List.filter_congr
      intro r hr
      simp [keepRow, List.all_cons, hoc]
    | okAll =>
      simp only [cleanupCandidate, hoc]
      rw [List.filter_filter]
      apply List.filter_congr
      intro r hr
      by_cases hcr : c.file_id = r.file_id
      · simp [keepRow, List.all_cons, hoc, hcr, bne]
        intro hx
        rw [← hcr, hoc] at hx
        exact absurd hx (by decide)
      · have h1 : (r.file_id != c.file_id) = true := bne_iff_ne.mpr (Ne.symm hcr)
        have h2 : (c.file_id != r.file_id) = true := bne_iff_ne.mpr hcr
        simp [keepRow, List.all_cons, hoc, h1, h2]
    | noSuchKey =>
      simp only [cleanupCandidate, hoc]
      rw [List.filter_filter]
      apply List.filter_congr
      intro r hr
      by_cases hcr : c.file_id = r.file_id
      · simp [keepRow, List.all_cons, hoc, hcr, bne]
        intro hx
        rw [← hcr, hoc] at hx
        exact absurd hx (by decide)
      · have h1 : (r.file_id != c.file_id) = true := bne_iff_ne.mpr (Ne.symm hcr)
        have h2 : (c.file_id != r.file_id) = true := bne_iff_ne.mpr hcr
        simp [keepRow, List.all_cons, hoc, h1, h2]

theorem runCleanup_audit (op : AuditOp) (outcome : Nat → CleanOutcome)
    (cands : List FileRecord) (st : SysState) :
    (runCleanup op outcome cands st).2.auditLog =
      st.auditLog ++ sweepAudits op outcome cands := by
  induction cands generalizing st with
  | nil => simp [runCleanup, sweepAudits]
  | cons c rest ih =>
    have hstep : (runCleanup op outcome (c :: rest) st).2 =
        (runCleanup op outcome rest (cleanupCandidate op outcome c st)).2 := rfl
    rw [hstep, ih]
    cases hoc : outcome c.file_id with
    | okAll => simp [cleanupCandidate, hoc, sweepAudits, List.filter_cons]
    | noSuchKey => simp [cleanupCandidate, hoc, sweepAudits, List.filter_cons]
    | s3ErrOther => simp [cleanupCandidate, hoc, sweepAudits, List.filter_cons]

/-- Counterexample to claim C8 as stated: a sweep over a single expired
candidate whose blob is already absent (`S3Error` code `NoSuchKey`)
deletes the metadata row and counts the candidate as cleaned, but
appends **no** audit entry — the `NoSuchKey` arm of the worker's
try/except deletes the row without the `file_audit_log` INSERT. -/
theorem c8_counterexample :
    (cleanup_expired_files outcomeNoKey 200
      { emptyState with db := [sampleRecord] }).1 = 1 ∧
    (cleanup_expired_files outcomeNoKey 200
      { emptyState with db := [sampleRecord] }).2.db = [] ∧
    (cleanup_expired_files outcomeNoKey 200
      { emptyState with db := [sampleRecord] }).2.auditLog = [] := by
  decide

theorem runStorageCleanup_count (outcome : Nat → CleanOutcome)
    (cands : List FileRecord) (st : SysState) :
    (runStorageCleanup outcome cands st).1 =
      (cands.filter (fun c => outcome c.file_id == CleanOutcome.okAll)).length := by
  induction cands generalizing st with
  | nil => rfl
  | cons c rest ih =>
    have hstep : (runStorageCleanup outcome (c :: rest) st).1 =
        (if outcome c.file_id == CleanOutcome.okAll then 1 else 0) +
          (runStorageCleanup outcome rest (storageCleanupCandidate outcome c st)).1 := rfl
    rw [hstep, ih]
    cases hoc : outcome c.file_id
    · simp [List.filter_cons, hoc]
      omega
    · simp [List.filter_cons, hoc]
    · simp [List.filter_cons, hoc]

theorem runStorageCleanup_db (outcome : Nat → CleanOutcome)
    (cands : List FileRecord) (st : SysState) :
    (runStorageCleanup outcome cands st).2.db =
      st.db.filter (keepRowStorage outcome cands) := by
  induction cands generalizing st with
  | nil =>
    have h : st.db.filter (keepRowStorage outcome []) = st.db.filter (fun _ => true) :=
      List.filter_congr (fun a _ => rfl)
    simp [runStorageCleanup, h]
  | cons c rest ih =>
    have hstep : (runStorageCleanup outcome (c :: rest) st).2 =
        (runStorageCleanup outcome rest (storageCleanupCandidate outcome c st)).2 := rfl
    rw [hstep, ih]
    cases hoc : outcome c.file_id with
    | okAll =>
      simp only [storageCleanupCandidate, hoc]
      rw [List.filter_filter]
      apply List.filter_congr
      intro r hr
      by_cases hcr : c.file_id = r.file_id
      · simp [keepRowStorage, List.all_cons, hoc, hcr, bne]
        intro hx
        rw [← hcr, hoc] at hx
        exact absurd rfl hx
      · have h1 : (r.file_id != c.file_id) = true := bne_iff_ne.mpr (Ne.symm hcr)
        have h2 : (c.file_id != r.file_id) = true := bne_iff_ne.mpr hcr
        simp [keepRowStorage, List.all_cons, hoc, h1, h2]
    | noSuchKey =>
      simp only [storageCleanupCandidate, hoc]
      apply List.filter_congr
      intro r hr
      simp [keepRowStorage, List.all_cons, hoc]
    | s3ErrOther =>
      simp only [storageCleanupCandidate, hoc]
      apply List.filter_congr
      intro r hr
      simp [keepRowStorage, List.all_cons, hoc]

theorem runStorageCleanup_audit (outcome : Nat → CleanOutcome)
    (cands : List FileRecord) (st : SysState) :
    (runStorageCleanup outcome cands st).2.auditLog = st.auditLog := by
  induction cands generalizing st with
  | nil => rfl
  | cons c rest ih =>
    have hstep : (runStorageCleanup outcome (c :: rest) st).2 =
        (runStorageCleanup outcome rest (storageCleanupCandidate outcome c st)).2 := rfl
    rw [hstep, ih]
    cases hoc : outcome c.file_id <;> simp [storageCleanupCandidate, hoc]

/-- Claim C8, amended: every cleanup sweep processes its candidates in
isolation — each sweep's count, surviving rows and audit entries are
pointwise functions of the individual candidates' outcomes, so a
failure on one candidate never prevents the remaining candidates from
being processed, and a failing candidate's metadata row stays for the
next sweep.  The two worker sweeps (expired and downloaded) tolerate an
already-absent blob (`NoSuchKey`): the metadata row is still deleted
and the candidate counted, though (unlike the claim) no audit entry is
appended in that arm — `expired_cleanup` / `downloaded_cleanup` audit
entries are appended exactly for candidates whose whole per-item block
succeeded.  The storage-service `/cleanup/expired` sweep has only a
generic exception handler and appends no audit entries at all: there,
any blob-delete error — a not-found included — leaves that candidate's
metadata row in place and uncounted. -/
theorem c8_cleanup_characterization (outcome : Nat → CleanOutcome) (now : Nat)
    (st : SysState) :
    ((cleanup_expired_files outcome now st).1 =
      ((expiredCands now st).filter
        (fun c => outcome c.file_id != CleanOutcome.s3ErrOther)).length ∧
    (cleanup_expired_files outcome now st).2.db =
      st.db.filter (keepRow outcome (expiredCands now st)) ∧
    (cleanup_expired_files outcome now st).2.auditLog =
      st.auditLog ++ sweepAudits AuditOp.expired_cleanup outcome (expiredCands now st)) ∧
    ((cleanup_downloaded_files outcome now st).1 =
      ((downloadedCands now st).filter
        (fun c => outcome c.file_id != CleanOutcome.s3ErrOther)).length ∧
    (cleanup_downloaded_files outcome now st).2.db =
      st.db.filter (keepRow outcome (downloadedCands now st)) ∧
    (cleanup_downloaded_files outcome now st).2.auditLog =
      st.auditLog ++
        sweepAudits AuditOp.downloaded_cleanup outcome (downloadedCands now st)) ∧
    ((storage_cleanup_expired_files outcome now st).1 =
      ((storageExpiredCands now st).filter
        (fun c => outcome c.file_id == CleanOutcome.okAll)).length ∧
    (storage_cleanup_expired_files outcome now st).2.db =
      st.db.filter (keepRowStorage outcome (storageExpiredCands now st)) ∧
    (storage_cleanup_expired_files outcome now st).2.auditLog = st.auditLog) :=
  ⟨⟨runCleanup_count AuditOp.expired_cleanup outcome (expiredCands now st) st,
    runCleanup_db AuditOp.expired_cleanup outcome (expiredCands now st) st,
    runCleanup_audit AuditOp.expired_cleanup outcome (expiredCands now st) st⟩,
   ⟨runCleanup_count AuditOp.downloaded_cleanup outcome (downloadedCands now st) st,
    runCleanup_db AuditOp.downloaded_cleanup outcome (downloadedCands now st) st,
    runCleanup_audit AuditOp.downloaded_cleanup outcome (downloadedCands now st) st⟩,
   ⟨runStorageCleanup_count outcome (storageExpiredCands now st) st,
    runStorageCleanup_db outcome (storageExpiredCands now st) st,
    runStorageCleanup_audit outcome (storageExpiredCands now st) st⟩⟩

theorem pythonTokenHex_length (l : List Nat) :
    (pythonTokenHex l).length = 2 * l.length := by
  induction l with
  | nil => rfl
  | cons b rest ih =>
    simp [pythonTokenHex] at ih ⊢
    omega

theorem hexDigits_getD_mem (n : Nat) : hexDigits.getD n '0' ∈ hexDigits := by
  by_cases h : n < 16
  · have hall : ∀ m, m < 16 → hexDigits.getD m '0' ∈ hexDigits := by decide
    exact hall n h
  · rw [List.getD_eq_default]
    · decide
    · show hexDigits.length ≤ n
      rw [show hexDigits.length = 16 from rfl]
      omega

theorem pythonTokenHex_mem (l : List Nat) (c : Char) (hc : c ∈ pythonTokenHex l) :
    c ∈ hexDigits := by
  induction l with
  | nil => simp [pythonTokenHex] at hc
  | cons b rest ih =>
    simp only [pythonTokenHex, List.flatMap_cons, List.mem_append] at hc
    rcases hc with hc | hc
    · rw [List.mem_cons, List.mem_cons] at hc
      rcases hc with h | h | h
      · subst h; exact hexDigits_getD_mem _
      · subst h; exact hexDigits_getD_mem _
      · simp at h
    · exact ih (by simpa [pythonTokenHex] using hc)

theorem b64UrlEncode_length (l : List Nat) :
    (b64UrlEncode l).length = (4 * l.length + 2) / 3 := by
  induction l using b64UrlEncode.induct <;> (simp [b64UrlEncode, *]; try omega)

theorem b64Char_mem (n : Nat) (h : n < 64) : isUrlsafeChar (b64Char n) = true := by
  have hall : ∀ m, m < 64 → isUrlsafeChar (b64Char m) = true := by decide
  exact hall n h

theorem b64UrlEncode_mem (l : List Nat) (hb : ∀ b ∈ l, b < 256) (c : Char)
    (hc : c ∈ b64UrlEncode l) : isUrlsafeChar c = true := by
  induction l using b64UrlEncode.induct with
  | case1 => simp [b64UrlEncode] at hc
  | case2 b1 =>
    have h1 : b1 < 256 := hb b1 (by simp)
    simp [b64UrlEncode] at hc
    rcases hc with h | h <;> subst h <;> apply b64Char_mem <;> omega
  | case3 b1 b2 =>
    have h1 : b1 < 256 := hb b1 (by simp)
    have h2 : b2 < 256 := hb b2 (by simp)
    simp [b64UrlEncode] at hc
    rcases hc with h | h | h <;> subst h <;> apply b64Char_mem <;> omega
  | case4 b1 b2 b3 rest ih =>
    have h1 : b1 < 256 := hb b1 (by simp)
    have h2 : b2 < 256 := hb b2 (by simp)
    have h3 : b3 < 256 := hb b3 (by simp)
    simp only [b64UrlEncode, List.mem_cons] at hc
    rcases hc with h | h | h | h | h
    · subst h; apply b64Char_mem; omega
    · subst h; apply b64Char_mem; omega
    · subst h; apply b64Char_mem; omega
    · subst h; apply b64Char_mem; omega
    · exact ih (fun b hbm => hb b (by simp [hbm])) h

/-- Claim C9: the gateway's identifiers have the documented shapes —
`file_id = secrets.token_hex(16)` encodes 16 bytes as a 32-character
string of lowercase hex digits, and
`download_token = secrets.token_urlsafe(32)` encodes 32 bytes as a
43-character string over the URL-safe alphabet
(letters, digits, `-`, `_`). -/
theorem c9_identifier_formats (bs16 bs32 : List Nat) :
    (bs16.length = 16 → (pythonTokenHex bs16).length = 32 ∧
      ∀ c ∈ pythonTokenHex bs16, c ∈ hexDigits) ∧
    (bs32.length = 32 → (∀ b ∈ bs32, b < 256) →
      (pythonTokenUrlsafe bs32).length = 43 ∧
      ∀ c ∈ pythonTokenUrlsafe bs32, isUrlsafeChar c = true) := by
  constructor
  · intro hl
    refine ⟨by rw [pythonTokenHex_length, hl], ?_⟩
    intro c hc
    exact pythonTokenHex_mem bs16 c hc
  · intro hl hb
    constructor
    · show (b64UrlEncode bs32).length = 43
      rw [b64UrlEncode_length, hl]
    · intro c hc
      exact b64UrlEncode_mem bs32 hb c hc

/-- Witness for C9 at concrete byte lists: 16 bytes of `0xAB` hex-encode
to 32 characters, and 32 bytes of `0xFF` URL-safe-base64-encode to 43
characters. -/
theorem c9_witness :
    (pythonTokenHex (List.replicate 16 171)).length = 32 ∧
    (pythonTokenUrlsafe (List.replicate 32 255)).length = 43 :=
  ⟨((c9_identifier_formats (List.replicate 16 171) (List.replicate 32 255)).1
      (by decide)).1,
   ((c9_identifier_formats (List.replicate 16 171) (List.replicate 32 255)).2
      (by decide) (by decide)).1⟩
